import Mathlib

/-!
Verification development for the pipejs pipeline orchestrator.

The TypeScript sources are shallowly embedded:
* configuration values (the result of JSON.parse / yaml load) become the
  inductive `JValue`;
* `src/core/parser.ts` becomes pure functions producing the normalized
  `Pipeline` plus warning/error lists (`VMsg` values rendering to the
  exact strings the source pushes);
* `src/core/executor.ts` becomes a deterministic state-passing semantics
  parameterized by a plugin oracle (task id and attempt number decide the
  plugin outcome), with wall-clock timestamps modelled as ticks of a
  logical clock;
* `src/core/state.ts` becomes pure transformers of a file-document state
  and of a relational row store;
* the scheduler fragment (PipelineScheduler) contributes
  `parseCronToInterval` and the firing schedule of `createCronJob`.
-/

namespace PipeJS

/-- JSON-like values, the result of JSON.parse or the yaml loader.
JavaScript `undefined` is modelled by `Option` at use sites. -/
inductive JValue where
  | null
  | bool (b : Bool)
  | num (n : Int)
  | str (s : String)
  | arr (elems : List JValue)
  | obj (fields : List (String × JValue))

/-- JavaScript truthiness of a value. -/
def truthy : JValue → Bool
  | .null => false
  | .bool b => b
  | .num n => n != 0
  | .str s => s != ""
  | .arr _ => true
  | .obj _ => true

/-- Property access `v[k]`: a string-keyed field of an object, `undefined`
(`none`) on arrays, primitives and absent keys. -/
def getField : JValue → String → Option JValue
  | .obj fields, k => (fields.find? (fun p => p.1 == k)).map (·.2)
  | _, _ => none

def isObj : JValue → Bool
  | .obj _ => true
  | _ => false

def isArr : JValue → Bool
  | .arr _ => true
  | _ => false

def isStr : JValue → Bool
  | .str _ => true
  | _ => false

/-- `typeof v === 'object'` in JavaScript is true for plain objects,
arrays and null. -/
def typeofObject : JValue → Bool
  | .obj _ => true
  | .arr _ => true
  | .null => true
  | _ => false

/-- Whitespace for the purposes of `String.prototype.trim`. -/
def wsChar (c : Char) : Bool := c == ' ' || c == '\t' || c == '\n' || c == '\r'

/-- JavaScript `s.trim()`, written on the character list so that it
computes by kernel reduction. -/
def jsTrim (s : String) : String :=
  String.mk (((s.data.dropWhile wsChar).reverse.dropWhile wsChar).reverse)

/-- Split on a single separator character with JavaScript
`String.prototype.split` semantics (empty chunks preserved). -/
def splitChars (sep : Char) : List Char → List (List Char)
  | [] => [[]]
  | c :: rest =>
    let r := splitChars sep rest
    if c == sep then [] :: r
    else match r with
      | h :: t => (c :: h) :: t
      | [] => [[c]]

/-- JavaScript `s.split(' ')`. -/
def jsSplitOnSpace (s : String) : List String :=
  (splitChars ' ' s.data).map String.mk

mutual

/-- JavaScript string coercion of a value as a template literal performs
it (`String(v)`): numbers in decimal, `[object Object]` for plain
objects, arrays joined with commas with null elements blank. -/
def jsDisplay : JValue → String
  | .null => "null"
  | .bool b => if b then "true" else "false"
  | .num n => toString n
  | .str s => s
  | .arr l => String.intercalate "," (jsDisplayElems l)
  | .obj _ => "[object Object]"

/-- Elements of an array under `Array.prototype.join`: null and
undefined render blank. -/
def jsDisplayElems : List JValue → List String
  | [] => []
  | .null :: rest => "" :: jsDisplayElems rest
  | v :: rest => jsDisplay v :: jsDisplayElems rest

end

/-- Retry policy normalized by the parser (`validateRetryConfig`):
both fields are clamped to be non-negative. -/
structure RetryPolicy where
  attempts : Nat
  delay : Nat
  deriving Repr, DecidableEq

/-- Trigger discriminator; `validateTriggers` only keeps these three. -/
inductive TriggerType where
  | cron
  | webhook
  | manual
  deriving Repr, DecidableEq

structure PipelineTrigger where
  type : TriggerType
  config : JValue

/-- A task as normalized by `PipelineParser.validateTasks`.  `enabled` is
`Option Bool` because objects reconstructed by the SQLite state backend
leave the property undefined. -/
structure Task where
  id : String
  name : String
  description : Option JValue
  plugin : String
  config : JValue
  dependsOn : List String
  retry : Option RetryPolicy
  timeout : Option Int
  enabled : Option Bool

/-- `if (!task.enabled)` in the executor: undefined and false are falsy. -/
def enabledTruthy : Option Bool → Bool
  | some b => b
  | none => false

/-- A pipeline as normalized by `PipelineParser.validatePipeline`.  The
optional raw fields keep whatever value the source casts into them. -/
structure Pipeline where
  name : String
  version : String
  description : Option JValue
  tasks : List Task
  triggers : Option (List PipelineTrigger)
  concurrency : Option JValue
  env : Option JValue
  timeout : Option JValue

/-- Warnings and errors pushed by the parser.  Each constructor renders to
the exact template string the source pushes (see `renderMsg`). -/
inductive VMsg where
  | pipelineNameMissing
  | pipelineVersionMissing
  | tasksNotArray
  | descriptionNotString
  | concurrencyInvalid
  | timeoutInvalid
  | envInvalid
  | noTasks
  | taskNotObject (index : Nat)
  | taskIdMissing (index : Nat)
  | taskNameMissing (rawId : String)
  | taskPluginMissing (rawId : String)
  | duplicateTaskId (taskId : String)
  | dependsOnNotArray (taskId : String)
  | dependsOnNonString (taskId : String) (depText : String)
  | retryNotObject (taskId : String)
  | taskTimeoutInvalid (taskId : String)
  | triggersNotArray
  | triggerNotObject (index : Nat)
  | triggerTypeMissing (index : Nat)
  | triggerConfigMissing (index : Nat)
  | cronExpressionMissing (index : Nat)
  | cronTimezoneNotString (index : Nat)
  | cronNotFiveParts (expr : String) (index : Nat)
  | webhookPathMissing (index : Nat)
  | webhookMethodInvalid (index : Nat)
  | webhookSecretNotString (index : Nat)
  | unknownTriggerType (t : String) (index : Nat)
  | missingDependency (taskId : String) (depId : String)
  | circularDependency (taskId : String)
  | multipleRoots (ids : List String)
  deriving Repr, DecidableEq

/-- The exact strings pushed by `src/core/parser.ts`. -/
def renderMsg : VMsg → String
  | .pipelineNameMissing => "Pipeline must have a non-empty \"name\" string"
  | .pipelineVersionMissing => "Pipeline must have a non-empty \"version\" string"
  | .tasksNotArray => "Pipeline must have a \"tasks\" array"
  | .descriptionNotString => "Pipeline description should be a string"
  | .concurrencyInvalid => "Pipeline concurrency should be a positive number, using default"
  | .timeoutInvalid => "Pipeline timeout should be a non-negative number, using default"
  | .envInvalid => "Pipeline env should be an object, ignoring"
  | .noTasks => "Pipeline has no tasks"
  | .taskNotObject i => "Task at index " ++ toString i ++ " must be an object"
  | .taskIdMissing i => "Task at index " ++ toString i ++ " must have a non-empty \"id\" string"
  | .taskNameMissing r => "Task \"" ++ r ++ "\" should have a non-empty \"name\" string"
  | .taskPluginMissing r => "Task \"" ++ r ++ "\" must have a non-empty \"plugin\" string"
  | .duplicateTaskId t => "Duplicate task ID: " ++ t
  | .dependsOnNotArray t => "Task \"" ++ t ++ "\" dependsOn should be an array of task IDs"
  | .dependsOnNonString t d => "Task \"" ++ t ++ "\" dependsOn contains non-string value: " ++ d
  | .retryNotObject t => "Task \"" ++ t ++ "\" retry should be an object, ignoring"
  | .taskTimeoutInvalid t => "Task \"" ++ t ++ "\" timeout should be a positive number, ignoring"
  | .triggersNotArray => "Triggers must be an array"
  | .triggerNotObject i => "Trigger at index " ++ toString i ++ " must be an object"
  | .triggerTypeMissing i => "Trigger at index " ++ toString i ++ " must have a \"type\" string"
  | .triggerConfigMissing i => "Trigger at index " ++ toString i ++ " must have a \"config\" object"
  | .cronExpressionMissing i => "Cron trigger at index " ++ toString i ++ " must have an \"expression\" string"
  | .cronTimezoneNotString i => "Cron trigger at index " ++ toString i ++ " timezone should be a string"
  | .cronNotFiveParts e i => "Cron expression \"" ++ e ++ "\" at index " ++ toString i ++ " should have 5 parts"
  | .webhookPathMissing i => "Webhook trigger at index " ++ toString i ++ " must have a \"path\" string"
  | .webhookMethodInvalid i => "Webhook trigger at index " ++ toString i ++ " method should be GET, POST, or PUT"
  | .webhookSecretNotString i => "Webhook trigger at index " ++ toString i ++ " secret should be a string"
  | .unknownTriggerType t i => "Unknown trigger type: " ++ t ++ " at index " ++ toString i
  | .missingDependency a d => "Task \"" ++ a ++ "\" depends on non-existent task: " ++ d
  | .circularDependency t => "Circular dependency detected involving task: " ++ t
  | .multipleRoots ids =>
      "Multiple root tasks found: " ++ String.intercalate ", " ids ++ ". Pipeline should have a single entry point."

/-! ## Parser (src/core/parser.ts) -/

/-- How `PipelineParser.parse` can throw: a ValidationError is rethrown
as-is, any other exception (a TypeError from normalization, a JSON/yaml
syntax error) is wrapped by the catch at the bottom of `parse`. -/
inductive ParseFailure where
  | validationFailed (msg : String)
  | crash (msg : String)

structure ParserOptions where
  validate : Bool
  strict : Bool

structure ParseResult where
  pipeline : Pipeline
  warnings : List VMsg
  errors : List VMsg

/-- `PipelineParser.validateDependencies`. -/
def validateDependencies (dependsOn : Option JValue) (taskId : String) :
    List String × List VMsg :=
  match dependsOn with
  | none => ([], [])
  | some .null => ([], [])
  | some (.arr deps) =>
      deps.foldl
        (fun (acc : List String × List VMsg) dep =>
          match dep with
          | .str s => (acc.1 ++ [jsTrim s], acc.2)
          | v => (acc.1, acc.2 ++ [.dependsOnNonString taskId (jsDisplay v)]))
        ([], [])
  | some _ => ([], [.dependsOnNotArray taskId])

/-- `PipelineParser.validateRetryConfig`.  `attempts` is
`Math.max(0, Math.floor(n))` and `delay` is `Math.max(0, n)` with default
1000; an `attempts` of 0 drops the retry block. -/
def validateRetryConfig (retry : Option JValue) (taskId : String) :
    Option RetryPolicy × List VMsg :=
  match retry with
  | none => (none, [])
  | some .null => (none, [])
  | some (.obj fields) =>
      let attempts : Nat :=
        match getField (.obj fields) "attempts" with
        | some (.num n) => (max 0 n).toNat
        | _ => 0
      let delay : Nat :=
        match getField (.obj fields) "delay" with
        | some (.num n) => (max 0 n).toNat
        | _ => 1000
      if attempts > 0 then (some ⟨attempts, delay⟩, []) else (none, [])
  | some _ => (none, [.retryNotObject taskId])

/-- State threaded through the per-task validation loop. -/
structure TasksAcc where
  tasks : List Task
  ids : List String
  warnings : List VMsg
  errors : List VMsg

/-- One iteration of the `for` loop in `PipelineParser.validateTasks`.
Returns `Except` because the display-name normalization
`(t.name as string)?.trim() || taskId` raises a TypeError when `name` is
present but neither a string nor null. -/
def validateTaskEntry (index : Nat) (task : JValue) (acc : TasksAcc) :
    Except String TasksAcc :=
  if ¬ (typeofObject task && !(task matches .null)) then
    .ok { acc with errors := acc.errors ++ [.taskNotObject index] }
  else
    match getField task "id" with
    | some (.str rawId) =>
      if jsTrim rawId == "" then
        .ok { acc with errors := acc.errors ++ [.taskIdMissing index] }
      else
        let nameWarn : List VMsg :=
          match getField task "name" with
          | some (.str s) => if jsTrim s == "" then [.taskNameMissing rawId] else []
          | _ => [.taskNameMissing rawId]
        let acc := { acc with warnings := acc.warnings ++ nameWarn }
        match getField task "plugin" with
        | some (.str rawPlugin) =>
          if jsTrim rawPlugin == "" then
            .ok { acc with errors := acc.errors ++ [.taskPluginMissing rawId] }
          else
            let taskId := jsTrim rawId
            if acc.ids.contains taskId then
              .ok { acc with errors := acc.errors ++ [.duplicateTaskId taskId] }
            else
              let acc := { acc with ids := acc.ids ++ [taskId] }
              let config : JValue :=
                match getField task "config" with
                | some v => if truthy v && typeofObject v then v else .obj []
                | none => .obj []
              let deps := validateDependencies (getField task "dependsOn") taskId
              let acc := { acc with errors := acc.errors ++ deps.2 }
              let retry := validateRetryConfig (getField task "retry") taskId
              let acc := { acc with warnings := acc.warnings ++ retry.2 }
              let timeoutAndWarn : Option Int × List VMsg :=
                match getField task "timeout" with
                | none => (none, [])
                | some (.num n) =>
                    if n > 0 then (some n, []) else (none, [.taskTimeoutInvalid taskId])
                | some _ => (none, [.taskTimeoutInvalid taskId])
              let acc := { acc with warnings := acc.warnings ++ timeoutAndWarn.2 }
              match getField task "name" with
              | some (.str s) =>
                  let display := if jsTrim s == "" then taskId else jsTrim s
                  .ok { acc with tasks := acc.tasks ++ [{
                    id := taskId, name := display,
                    description := getField task "description",
                    plugin := jsTrim rawPlugin, config := config,
                    dependsOn := deps.1, retry := retry.1,
                    timeout := timeoutAndWarn.1,
                    enabled := some (!(getField task "enabled" matches some (.bool false))) }] }
              | none =>
                  .ok { acc with tasks := acc.tasks ++ [{
                    id := taskId, name := taskId,
                    description := getField task "description",
                    plugin := jsTrim rawPlugin, config := config,
                    dependsOn := deps.1, retry := retry.1,
                    timeout := timeoutAndWarn.1,
                    enabled := some (!(getField task "enabled" matches some (.bool false))) }] }
              | some .null =>
                  .ok { acc with tasks := acc.tasks ++ [{
                    id := taskId, name := taskId,
                    description := getField task "description",
                    plugin := jsTrim rawPlugin, config := config,
                    dependsOn := deps.1, retry := retry.1,
                    timeout := timeoutAndWarn.1,
                    enabled := some (!(getField task "enabled" matches some (.bool false))) }] }
              | some _ =>
                  .error "t.name.trim is not a function"
        | _ => .ok { acc with errors := acc.errors ++ [.taskPluginMissing rawId] }
    | _ => .ok { acc with errors := acc.errors ++ [.taskIdMissing index] }

/-- `PipelineParser.validateTasks`. -/
def validateTasks (tasks : List JValue) :
    Except String (List Task × List VMsg × List VMsg) := do
  let w0 : List VMsg := if tasks.length == 0 then [.noTasks] else []
  let rec go (index : Nat) (rest : List JValue) (acc : TasksAcc) :
      Except String TasksAcc :=
    match rest with
    | [] => .ok acc
    | t :: rest => do go (index + 1) rest (← validateTaskEntry index t acc)
  let acc ← go 0 tasks { tasks := [], ids := [], warnings := w0, errors := [] }
  return (acc.tasks, acc.warnings, acc.errors)

/-- `PipelineParser.validateCronTrigger`: returned as (warnings, errors)
appended for this entry. -/
def validateCronTrigger (c : JValue) (index : Nat) : List VMsg × List VMsg :=
  let exprErr : List VMsg :=
    match getField c "expression" with
    | some (.str e) => if jsTrim e == "" then [.cronExpressionMissing index] else []
    | _ => [.cronExpressionMissing index]
  let tzWarn : List VMsg :=
    match getField c "timezone" with
    | some v => if truthy v && !(isStr v) then [.cronTimezoneNotString index] else []
    | none => []
  let partsWarn : List VMsg :=
    match getField c "expression" with
    | some (.str e) =>
        let expr := jsTrim e
        if (jsSplitOnSpace expr).length != 5 then [.cronNotFiveParts expr index] else []
    | _ => []
  (tzWarn ++ partsWarn, exprErr)

/-- `PipelineParser.validateWebhookTrigger`. -/
def validateWebhookTrigger (c : JValue) (index : Nat) : List VMsg × List VMsg :=
  let pathErr : List VMsg :=
    match getField c "path" with
    | some (.str s) => if jsTrim s == "" then [.webhookPathMissing index] else []
    | _ => [.webhookPathMissing index]
  let methodWarn : List VMsg :=
    match getField c "method" with
    | some v =>
        if truthy v &&
            !(v matches .str "GET") && !(v matches .str "POST") && !(v matches .str "PUT")
        then [.webhookMethodInvalid index] else []
    | none => []
  let secretWarn : List VMsg :=
    match getField c "secret" with
    | some v => if truthy v && !(isStr v) then [.webhookSecretNotString index] else []
    | none => []
  (methodWarn ++ secretWarn, pathErr)

structure TriggersAcc where
  triggers : List PipelineTrigger
  warnings : List VMsg
  errors : List VMsg

/-- One iteration of the loop in `PipelineParser.validateTriggers`. -/
def validateTriggerEntry (index : Nat) (t : JValue) (acc : TriggersAcc) : TriggersAcc :=
  if ¬ (typeofObject t && !(t matches .null)) then
    { acc with errors := acc.errors ++ [.triggerNotObject index] }
  else
    match getField t "type" with
    | some (.str ty) =>
      (match getField t "config" with
       | some c =>
         if ¬ (truthy c && typeofObject c) then
           { acc with errors := acc.errors ++ [.triggerConfigMissing index] }
         else if ty == "cron" then
           let (w, e) := validateCronTrigger c index
           { acc with warnings := acc.warnings ++ w, errors := acc.errors ++ e,
                      triggers := acc.triggers ++ [⟨.cron, c⟩] }
         else if ty == "webhook" then
           let (w, e) := validateWebhookTrigger c index
           { acc with warnings := acc.warnings ++ w, errors := acc.errors ++ e,
                      triggers := acc.triggers ++ [⟨.webhook, c⟩] }
         else if ty == "manual" then
           { acc with triggers := acc.triggers ++ [⟨.manual, c⟩] }
         else
           { acc with warnings := acc.warnings ++ [.unknownTriggerType ty index] }
       | none => { acc with errors := acc.errors ++ [.triggerConfigMissing index] })
    | _ => { acc with errors := acc.errors ++ [.triggerTypeMissing index] }

/-- `PipelineParser.validateTriggers`. -/
def validateTriggers (v : JValue) :
    Option (List PipelineTrigger) × List VMsg × List VMsg :=
  match v with
  | .arr entries =>
      let rec go (index : Nat) (rest : List JValue) (acc : TriggersAcc) : TriggersAcc :=
        match rest with
        | [] => acc
        | t :: rest => go (index + 1) rest (validateTriggerEntry index t acc)
      let acc := go 0 entries { triggers := [], warnings := [], errors := [] }
      (some acc.triggers, acc.warnings, acc.errors)
  | _ => (none, [], [.triggersNotArray])

/-- State of the grey/black depth-first search in
`PipelineParser.detectCycles`: `visited` is black-or-grey, `stack` is the
grey recursion stack. -/
structure DfsState where
  visited : List String
  stack : List String
  errors : List VMsg

/-- `PipelineParser.detectCycles`.  The source recurses on the dependency
graph; every nested call first adds an unvisited id to `visited`, so the
recursion depth is bounded by the number of distinct ids plus one and the
fuel `tasks.length + 2` used below never runs out. -/
def detectCycles (tasks : List Task) : Nat → String → DfsState → DfsState
  | 0, _, s => s
  | fuel + 1, taskId, s =>
    if s.stack.contains taskId then
      { s with errors := s.errors ++ [.circularDependency taskId] }
    else if s.visited.contains taskId then s
    else
      let s := { s with visited := s.visited ++ [taskId], stack := s.stack ++ [taskId] }
      let s :=
        match tasks.find? (fun t => t.id == taskId) with
        | some t => t.dependsOn.foldl (fun acc d => detectCycles tasks fuel d acc) s
        | none => s
      { s with stack := s.stack.filter (fun x => x != taskId) }

/-- The root tasks counted by `validateDAGStructure`: no dependencies and
no dependents (the source calls them orphaned). -/
def orphanedTasks (p : Pipeline) : List Task :=
  let hasDependents := p.tasks.foldl (fun acc t => acc ++ t.dependsOn) []
  p.tasks.filter (fun t => t.dependsOn.isEmpty && !(hasDependents.contains t.id))

/-- The body of the first `for` loop in `validateDAGStructure`: run the
cycle DFS when the task is unvisited, then append one error per
unresolvable dependency. -/
def dagStep (tasks : List Task) (taskIds : List String) (s : DfsState)
    (task : Task) : DfsState :=
  let s :=
    if s.visited.contains task.id then s
    else detectCycles tasks (tasks.length + 2) task.id s
  let depErrs : List VMsg :=
    (task.dependsOn.filter (fun d => !(taskIds.contains d))).map
      (fun d => .missingDependency task.id d)
  { s with errors := s.errors ++ depErrs }

/-- `PipelineParser.validateDAGStructure`: cycle detection, dependency
existence, then the multiple-roots check.  Returns the errors it appends. -/
def validateDAGStructure (p : Pipeline) : List VMsg :=
  let taskIds := p.tasks.map (fun t => t.id)
  let s := p.tasks.foldl (dagStep p.tasks taskIds)
    { visited := [], stack := [], errors := [] }
  let orphaned := orphanedTasks p
  if orphaned.length > 1 then
    s.errors ++ [.multipleRoots (orphaned.map (fun t => t.id))]
  else
    s.errors

/-- `PipelineParser.validatePipeline`: shape check, field validation, task
and trigger validation, normalized pipeline construction, DAG check.
Failures: the explicit `Pipeline must be an object` ValidationError, or a
TypeError crash from `(p.name as string)?.trim()` (and the version and
task-name analogues) when the field is present but neither string nor
null. -/
def validatePipeline (pv : JValue) :
    Except ParseFailure (Pipeline × List VMsg × List VMsg) := do
  if ¬ (typeofObject pv && !(pv matches .null)) then
    throw (.validationFailed "Pipeline must be an object")
  let nameOk : Bool :=
    match getField pv "name" with
    | some (.str s) => jsTrim s != ""
    | _ => false
  let versionOk : Bool :=
    match getField pv "version" with
    | some (.str s) => jsTrim s != ""
    | _ => false
  let errors : List VMsg :=
    (if nameOk then [] else [.pipelineNameMissing]) ++
    (if versionOk then [] else [.pipelineVersionMissing]) ++
    (if (getField pv "tasks").any isArr then [] else [.tasksNotArray])
  let warnings : List VMsg :=
    (match getField pv "description" with
     | some v => if truthy v && !(isStr v) then [.descriptionNotString] else []
     | none => []) ++
    (match getField pv "concurrency" with
     | some v =>
         if truthy v && !(v matches .num _) then [.concurrencyInvalid]
         else match v with
           | .num n => if n < 1 then [.concurrencyInvalid] else []
           | _ => []
     | none => []) ++
    (match getField pv "timeout" with
     | some v =>
         if truthy v && !(v matches .num _) then [.timeoutInvalid]
         else match v with
           | .num n => if n < 0 then [.timeoutInvalid] else []
           | _ => []
     | none => []) ++
    (match getField pv "env" with
     | some v => if truthy v && !(isObj v) then [.envInvalid] else []
     | none => [])
  let tasksResult ←
    match getField pv "tasks" with
    | some (.arr l) =>
        match validateTasks l with
        | .ok r => pure r
        | .error m => throw (.crash m)
    | _ => pure ([], [], [])
  let warnings := warnings ++ tasksResult.2.1
  let errors := errors ++ tasksResult.2.2
  let triggersResult :
      Option (List PipelineTrigger) × List VMsg × List VMsg :=
    match getField pv "triggers" with
    | some v => if truthy v then validateTriggers v else (none, [], [])
    | none => (none, [], [])
  let warnings := warnings ++ triggersResult.2.1
  let errors := errors ++ triggersResult.2.2
  let name : String ←
    match getField pv "name" with
    | some (.str s) => pure (if jsTrim s == "" then "unnamed-pipeline" else jsTrim s)
    | none => pure "unnamed-pipeline"
    | some .null => pure "unnamed-pipeline"
    | some _ => throw (.crash "p.name.trim is not a function")
  let version : String ←
    match getField pv "version" with
    | some (.str s) => pure (if jsTrim s == "" then "1.0.0" else jsTrim s)
    | none => pure "1.0.0"
    | some .null => pure "1.0.0"
    | some _ => throw (.crash "p.version.trim is not a function")
  let result : Pipeline := {
    name := name, version := version,
    description := getField pv "description",
    tasks := tasksResult.1,
    triggers := triggersResult.1,
    concurrency := getField pv "concurrency",
    env := getField pv "env",
    timeout := getField pv "timeout" }
  let errors := errors ++ validateDAGStructure result
  return (result, warnings, errors)

/-- The message `parse` wraps around non-ValidationError exceptions
(syntax errors from JSON.parse / the yaml loader, TypeErrors from
normalization); the source appends the original message after a colon,
elided here. -/
def parseWrapMsg : String := "Failed to parse pipeline configuration"

/-- `PipelineParser.parse`.  The input is the decoded configuration
document; `none` stands for text that JSON.parse / the yaml loader
rejects.  A `null` document crashes at the `config.pipeline` property
access and is wrapped like a syntax error. -/
def parse (input : Option JValue) (opts : ParserOptions) :
    Except String ParseResult :=
  match input with
  | none => .error parseWrapMsg
  | some .null => .error parseWrapMsg
  | some cfg =>
    match getField cfg "pipeline" with
    | none => .error "Missing \"pipeline\" root key in configuration"
    | some pv =>
      if ¬ truthy pv then
        .error "Missing \"pipeline\" root key in configuration"
      else
        match validatePipeline pv with
        | .error (.validationFailed m) => .error m
        | .error (.crash m) => .error (parseWrapMsg ++ ": " ++ m)
        | .ok (pl, w, e) =>
          if opts.validate && !e.isEmpty then
            .error "Pipeline validation failed"
          else
            .ok { pipeline := pl, warnings := w,
                  errors := if opts.strict then w ++ e else e }

/-! ## Executor (src/core/executor.ts)

The executor is embedded as a deterministic state-passing semantics.
Plugin behavior is abstracted by an oracle mapping a task id and a
1-based attempt number to the outcome of `pluginLoader.loadPlugin` plus
`plugin.execute` (including the timeout race).  `new Date()` timestamps
become ticks of a logical clock.  Concurrent dispatch of a wave
(`Promise.all`) is sequentialized: each dispatched task touches only its
own `TaskExecution` record, so the final record does not depend on the
interleaving; the `maxConcurrency` gate in `executeTaskWithConcurrency`
only shapes timing and has no effect on the recorded outcome. -/

inductive TaskStatus where
  | pending
  | running
  | success
  | failed
  | skipped
  | cancelled
  deriving Repr, DecidableEq

inductive PipelineStatus where
  | running
  | success
  | failed
  | cancelled
  | partialSuccess
  deriving Repr, DecidableEq

structure PluginResult where
  success : Bool
  output : Option JValue
  error : Option String
  metadata : Option JValue

structure TaskExecution where
  task : Task
  status : TaskStatus
  result : Option PluginResult
  startedAt : Option Nat
  completedAt : Option Nat
  attempts : Nat

structure PipelineRun where
  id : String
  pipelineName : String
  status : PipelineStatus
  startedAt : Nat
  completedAt : Option Nat
  tasks : List TaskExecution
  trigger : PipelineTrigger
  error : Option String

/-- The context built in `executeTask` and handed to `plugin.execute`.
The logger and state handles are side-effect capabilities and carry no
data. -/
structure ExecutionContext where
  pipeline : Pipeline
  task : Task
  executionId : String
  previousResults : List (String × PluginResult)
  vars : JValue  -- the source field is named `variables`, a keyword here

/-- Resolved `ExecutorOptions` (`maxConcurrency || 5`, `timeout || 0`,
`continueOnError || false`). -/
structure ExecutorOptions where
  maxConcurrency : Nat
  timeout : Nat
  continueOnError : Bool

def defaultExecutorOptions : ExecutorOptions :=
  { maxConcurrency := 5, timeout := 0, continueOnError := false }

/-- Outcome of resolving and invoking the plugin for one attempt:
`missing` when `loadPlugin` returns null, `err` when `plugin.execute`
throws or the timeout race expires, `ok` when it returns a result. -/
inductive PluginOutcome where
  | missing
  | err (msg : String)
  | ok (r : PluginResult)

/-- A plugin trace: task id and 1-based attempt number decide the
outcome. -/
def Oracle := String → Nat → PluginOutcome

/-- Result of one invocation of `executeTask`: the updated record, the
context handed to the plugin (when it was reached), the exception
propagated to the caller (when any), the delay of the scheduled
re-dispatch (when the retry branch was taken), and the advanced clock. -/
structure StepOut where
  te : TaskExecution
  ctx : Option ExecutionContext
  thrown : Option String
  retryDelay : Option Nat
  clock : Nat

/-- `variables: pipeline.env || {}`. -/
def contextVariables (p : Pipeline) : JValue :=
  match p.env with
  | some v => if truthy v then v else .obj []
  | none => .obj []

/-- Step 4 of per-task execution: the ExecutionContext literal in
`executeTask`; `previousResults` is built as `new Map()`. -/
def mkContext (pipeline : Pipeline) (task : Task) (executionId : String) :
    ExecutionContext :=
  { pipeline := pipeline, task := task, executionId := executionId,
    previousResults := [], vars := contextVariables pipeline }

/-- The `catch` block of `executeTask`: record the failure, then either
reset for a retry (`attempts < retry.attempts`) or finalize, rethrowing
unless `continueOnError`. -/
def catchBranch (opts : ExecutorOptions) (task : Task) (te : TaskExecution)
    (msg : String) (ctx : Option ExecutionContext) (clock : Nat) : StepOut :=
  let te := { te with
    status := .failed,
    completedAt := some clock,
    result := some { success := false, output := none, error := some msg, metadata := none } }
  let clock := clock + 1
  match task.retry with
  | some rp =>
    if te.attempts < rp.attempts then
      let reset := { te with status := TaskStatus.pending, startedAt := none,
                             completedAt := none, result := none }
      { te := reset, ctx := ctx, thrown := none, retryDelay := some rp.delay,
        clock := clock }
    else
      { te := te, ctx := ctx,
        thrown := if opts.continueOnError then none else some msg,
        retryDelay := none, clock := clock }
  | none =>
      { te := te, ctx := ctx,
        thrown := if opts.continueOnError then none else some msg,
        retryDelay := none, clock := clock }

/-- One invocation of `PipelineExecutor.executeTask` (lines 165-260). -/
def executeTask (oracle : Oracle) (opts : ExecutorOptions) (pipeline : Pipeline)
    (executionId : String) (clock : Nat) (te : TaskExecution) : StepOut :=
  let task := te.task
  if ¬ enabledTruthy task.enabled then
    { te := { te with status := .skipped }, ctx := none, thrown := none,
      retryDelay := none, clock := clock }
  else
    let te := { te with startedAt := some clock, status := TaskStatus.running,
                        attempts := te.attempts + 1 }
    let clock := clock + 1
    match oracle task.id te.attempts with
    | .missing =>
        catchBranch opts task te ("Plugin not found: " ++ task.plugin) none clock
    | .err m =>
        catchBranch opts task te m (some (mkContext pipeline task executionId)) clock
    | .ok r =>
        let ctx := mkContext pipeline task executionId
        let te := { te with result := some r,
                            status := if r.success then TaskStatus.success else .failed,
                            completedAt := some clock }
        let clock := clock + 1
        if r.success then
          { te := te, ctx := some ctx, thrown := none, retryDelay := none,
            clock := clock }
        else
          catchBranch opts task te
            ("Task execution failed: " ++ r.error.getD "undefined") (some ctx) clock

/-- The filter predicate of `getExecutableTasks`: not yet dispatched,
still pending, and every dependency resolved to success or skipped. -/
def isReady (tes : List TaskExecution) (executed : List String)
    (te : TaskExecution) : Bool :=
  !(executed.contains te.task.id) && te.status == .pending &&
    te.task.dependsOn.all (fun depId =>
      match tes.find? (fun t => t.task.id == depId) with
      | some dep => dep.status == .success || dep.status == .skipped
      | none => false)

/-- `PipelineExecutor.getExecutableTasks`. -/
def getExecutableTasks (tes : List TaskExecution) (executed : List String) :
    List TaskExecution :=
  tes.filter (isReady tes executed)

/-- Collective result of dispatching one wave / running the scheduling
loop. -/
structure WaveOut where
  tes : List TaskExecution
  ctxs : List (String × ExecutionContext)
  thrown : Option String
  clock : Nat

/-- Dispatch one wave: every entry satisfying `isReady` against the wave
snapshot runs one `executeTask` invocation, the others are untouched.
`Promise.all` surfaces the first rejection. -/
def runWave (oracle : Oracle) (opts : ExecutorOptions) (pipeline : Pipeline)
    (executionId : String) (snapshot : List TaskExecution)
    (executed : List String) : List TaskExecution → Nat → WaveOut
  | [], clock => { tes := [], ctxs := [], thrown := none, clock := clock }
  | te :: rest, clock =>
    if isReady snapshot executed te then
      let out := executeTask oracle opts pipeline executionId clock te
      let w := runWave oracle opts pipeline executionId snapshot executed rest out.clock
      { tes := out.te :: w.tes,
        ctxs := (match out.ctx with
                 | some c => (te.task.id, c) :: w.ctxs
                 | none => w.ctxs),
        thrown := out.thrown <|> w.thrown,
        clock := w.clock }
    else
      let w := runWave oracle opts pipeline executionId snapshot executed rest clock
      { tes := te :: w.tes, ctxs := w.ctxs, thrown := w.thrown, clock := w.clock }

/-- `executed.add(te.task.id)` over a wave (a Set: deduplicating). -/
def addIds (executed : List String) : List String → List String
  | [] => executed
  | i :: rest => addIds (if executed.contains i then executed else executed ++ [i]) rest

/-- The scheduling loop of `PipelineExecutor.executeTasks` (lines
95-123).  Each iteration with a non-empty ready set adds at least one new
id to `executed`, so `tes.length + 1` fuel never runs out; the fuel-zero
branch mirrors the deadlock throw and is unreachable. -/
def executeTasksLoop (oracle : Oracle) (opts : ExecutorOptions)
    (pipeline : Pipeline) (executionId : String) :
    Nat → List TaskExecution → List String → Nat → WaveOut
  | 0, tes, _, clock =>
    { tes := tes, ctxs := [],
      thrown := some "Pipeline deadlock - circular dependencies detected",
      clock := clock }
  | fuel + 1, tes, executed, clock =>
    if executed.length < tes.length then
      let ready := getExecutableTasks tes executed
      if ready.isEmpty then
        { tes := tes, ctxs := [],
          thrown := some "Pipeline deadlock - circular dependencies detected",
          clock := clock }
      else
        let w := runWave oracle opts pipeline executionId tes executed tes clock
        match w.thrown with
        | some m => { tes := w.tes, ctxs := w.ctxs, thrown := some m, clock := w.clock }
        | none =>
          let executed := addIds executed (ready.map (fun te => te.task.id))
          let w2 := executeTasksLoop oracle opts pipeline executionId fuel
                      w.tes executed w.clock
          { tes := w2.tes, ctxs := w.ctxs ++ w2.ctxs, thrown := w2.thrown,
            clock := w2.clock }
    else
      { tes := tes, ctxs := [], thrown := none, clock := clock }

/-- The initial TaskExecution records built in `executePipeline`
(every task starts `pending` with `attempts: 0`). -/
def initTaskExecutions (pipeline : Pipeline) : List TaskExecution :=
  pipeline.tasks.map (fun t =>
    { task := t, status := .pending, result := none, startedAt := none,
      completedAt := none, attempts := 0 })

/-- A pipeline run together with the contexts handed to plugins and the
error the catch block observed (if any). -/
structure RunResult where
  run : PipelineRun
  ctxs : List (String × ExecutionContext)
  caught : Option String

/-- `PipelineExecutor.executePipeline` (lines 39-93).  The run starts at
clock 0; the final status is computed from the task records, and any
exception from the scheduling loop is caught, recorded as `run.error`,
and the run is returned with status failed. -/
def executePipeline (oracle : Oracle) (opts : ExecutorOptions)
    (pipeline : Pipeline) (executionId : String) : RunResult :=
  let w := executeTasksLoop oracle opts pipeline executionId
             (pipeline.tasks.length + 1) (initTaskExecutions pipeline) [] 1
  let status : PipelineStatus :=
    match w.thrown with
    | some _ => .failed
    | none =>
      if w.tes.any (fun t => t.status == .running) then .running
      else if w.tes.any (fun t => t.status == .failed) then .failed
      else if w.tes.all (fun t => t.status == .skipped) then .cancelled
      else .success
  { run := { id := executionId, pipelineName := pipeline.name, status := status,
             startedAt := 0, completedAt := some w.clock, tasks := w.tes,
             trigger := ⟨.manual, .obj []⟩, error := w.thrown },
    ctxs := w.ctxs,
    caught := w.thrown }

/-- The eventual record of a task whose failures re-dispatch `executeTask`
from the retry timer (`setTimeout` at lines 248-251): each re-dispatch
happens `retry.delay` ticks later.  `retry.attempts` bounds the number of
re-dispatches, so fuel `retry.attempts + 1` suffices. -/
def executeTaskRetrying (oracle : Oracle) (opts : ExecutorOptions)
    (pipeline : Pipeline) (executionId : String) :
    Nat → Nat → TaskExecution → TaskExecution
  | 0, _, te => te
  | fuel + 1, clock, te =>
    let out := executeTask oracle opts pipeline executionId clock te
    match out.retryDelay with
    | some d => executeTaskRetrying oracle opts pipeline executionId fuel (out.clock + d) out.te
    | none => out.te

/-! ## Scheduler (PipelineScheduler) -/

/-- `PipelineScheduler.parseCronToInterval` (lines 340-349): the cron
expression is split on spaces and the interval is 60000 ms whether or not
five fields are present. -/
def parseCronToInterval (expression : String) : Nat :=
  let parts := jsSplitOnSpace expression
  if parts.length == 5 then 60000 else 60000

/-- Fire times of the timer armed by `createCronJob`: `start` arms
`setTimeout(execute, interval)` and each `execute` re-arms it, so the
k-th fire (0-based) happens `(k+1) * interval` ms after start. -/
def cronFireTime (expression : String) (k : Nat) : Nat :=
  (k + 1) * parseCronToInterval expression

/-- `PipelineScheduler.executeScheduledPipeline` (lines 351-367): a fresh
execution id is minted and the stored pipeline is handed to
`executor.executePipeline`; the trigger that fired is not passed on. -/
def executeScheduledPipeline (oracle : Oracle) (opts : ExecutorOptions)
    (pipeline : Pipeline) (_trigger : PipelineTrigger) (executionId : String) :
    RunResult :=
  executePipeline oracle opts pipeline executionId

/-! ## State store (src/core/state.ts)

The file backend keeps one JSON document; `loadState`/`saveState` are a
JSON.parse/JSON.stringify round trip, so what a reader observes is the
JSON encoding of what was saved (Dates become ISO strings, undefined
fields are dropped).  `Date.toISOString` and `new Date(s)` form an
injective encode/decode pair; the model uses the decimal string of the
logical-clock tick as the encoding, and the SQLite DATETIME columns hold
the decoded tick directly. -/

def isoOfTick (n : Nat) : String := toString n

def pipelineStatusToString : PipelineStatus → String
  | .running => "running"
  | .success => "success"
  | .failed => "failed"
  | .cancelled => "cancelled"
  | .partialSuccess => "partial_success"

/-- The source casts the stored status string back via `as any`; on rows
written by `savePipelineRun` the string is always one of the five
encodings, decoded here (defaulting like the unchecked cast would not). -/
def pipelineStatusOfString (s : String) : PipelineStatus :=
  if s == "running" then .running
  else if s == "success" then .success
  else if s == "failed" then .failed
  else if s == "cancelled" then .cancelled
  else .partialSuccess

def taskStatusToString : TaskStatus → String
  | .pending => "pending"
  | .running => "running"
  | .success => "success"
  | .failed => "failed"
  | .skipped => "skipped"
  | .cancelled => "cancelled"

def taskStatusOfString (s : String) : TaskStatus :=
  if s == "pending" then .pending
  else if s == "running" then .running
  else if s == "success" then .success
  else if s == "failed" then .failed
  else if s == "skipped" then .skipped
  else .cancelled

def triggerTypeToString : TriggerType → String
  | .cron => "cron"
  | .webhook => "webhook"
  | .manual => "manual"

def triggerTypeOfString (s : String) : TriggerType :=
  if s == "cron" then .cron
  else if s == "webhook" then .webhook
  else .manual

/-- JSON encoding of a PluginResult (undefined fields dropped by
JSON.stringify). -/
def pluginResultToJson (r : PluginResult) : JValue :=
  .obj ([("success", .bool r.success)] ++
    (match r.output with | some v => [("output", v)] | none => []) ++
    (match r.error with | some e => [("error", .str e)] | none => []) ++
    (match r.metadata with | some v => [("metadata", v)] | none => []))

def taskToJson (t : Task) : JValue :=
  .obj ([("id", .str t.id), ("name", .str t.name)] ++
    (match t.description with | some v => [("description", v)] | none => []) ++
    [("plugin", .str t.plugin), ("config", t.config),
     ("dependsOn", .arr (t.dependsOn.map .str))] ++
    (match t.retry with
     | some rp => [("retry", .obj [("attempts", .num rp.attempts),
                                   ("delay", .num rp.delay)])]
     | none => []) ++
    (match t.timeout with | some n => [("timeout", .num n)] | none => []) ++
    (match t.enabled with | some b => [("enabled", .bool b)] | none => []))

def taskExecToJson (te : TaskExecution) : JValue :=
  .obj ([("task", taskToJson te.task), ("status", .str (taskStatusToString te.status))] ++
    (match te.result with | some r => [("result", pluginResultToJson r)] | none => []) ++
    (match te.startedAt with | some n => [("startedAt", .str (isoOfTick n))] | none => []) ++
    (match te.completedAt with | some n => [("completedAt", .str (isoOfTick n))] | none => []) ++
    [("attempts", .num te.attempts)])

def triggerToJson (tr : PipelineTrigger) : JValue :=
  .obj [("type", .str (triggerTypeToString tr.type)), ("config", tr.config)]

/-- JSON encoding of a PipelineRun as the file backend persists it. -/
def runToJson (r : PipelineRun) : JValue :=
  .obj ([("id", .str r.id), ("pipelineName", .str r.pipelineName),
         ("status", .str (pipelineStatusToString r.status)),
         ("startedAt", .str (isoOfTick r.startedAt))] ++
    (match r.completedAt with | some n => [("completedAt", .str (isoOfTick n))] | none => []) ++
    [("tasks", .arr (r.tasks.map taskExecToJson)), ("trigger", triggerToJson r.trigger)] ++
    (match r.error with | some e => [("error", .str e)] | none => []))

/-- The file backend document: the parsed top-level JSON object. -/
abbrev FileDoc := List (String × JValue)

/-- `FileStateManager.get`: `state[key]`. -/
def fsGet (doc : FileDoc) (k : String) : Option JValue :=
  (doc.find? (fun p => p.1 == k)).map (fun p => p.2)

/-- `FileStateManager.set`: `state[key] = value` then rewrite. -/
def fsSet (doc : FileDoc) (k : String) (v : JValue) : FileDoc :=
  match doc.findIdx? (fun p => p.1 == k) with
  | some i => doc.set i (k, v)
  | none => doc ++ [(k, v)]

/-- `(await this.get('pipeline_runs') as PipelineRun[]) || []`: absent or
falsy becomes the empty array; a truthy non-array would make the
subsequent array methods throw (`none`). -/
def coerceRunsArray : Option JValue → Option (List JValue)
  | none => some []
  | some (.arr l) => some l
  | some v => if truthy v then none else some []

/-- `r.id === run.id` on a stored (JSON-decoded) run. -/
def runIdMatches (v : JValue) (runId : String) : Bool :=
  match getField v "id" with
  | some (.str s) => s == runId
  | _ => false

/-- The upsert in `FileStateManager.savePipelineRun`: replace the first
entry with the same id, else push. -/
def upsertRun (runs : List JValue) (encoded : JValue) (runId : String) :
    List JValue :=
  match runs.findIdx? (fun v => runIdMatches v runId) with
  | some i => runs.set i encoded
  | none => runs ++ [encoded]

/-- `FileStateManager.savePipelineRun` (lines 96-107): load, upsert the
JSON-encoded run, rewrite. -/
def fileSavePipelineRun (doc : FileDoc) (run : PipelineRun) : Option FileDoc :=
  (coerceRunsArray (fsGet doc "pipeline_runs")).map (fun runs =>
    fsSet doc "pipeline_runs" (.arr (upsertRun runs (runToJson run) run.id)))

/-- `FileStateManager.getPipelineRun` (lines 109-112).  The outer Option
is the crash on a corrupt document; the inner is `find(...) || null`. -/
def fileGetPipelineRun (doc : FileDoc) (runId : String) : Option (Option JValue) :=
  (coerceRunsArray (fsGet doc "pipeline_runs")).map (fun runs =>
    runs.find? (fun v => runIdMatches v runId))

/-- One row of the `pipejs_runs` table. -/
structure RunRow where
  id : String
  pipeline_name : String
  status : String
  started_at : Nat
  completed_at : Option Nat
  trigger_type : String
  trigger_config : JValue
  error_text : Option String

/-- One row of the `pipejs_tasks` table; list position models the
autoincrement rowid order. -/
structure TaskRow where
  run_id : String
  task_id : String
  task_name : String
  status : String
  started_at : Option Nat
  completed_at : Option Nat
  attempts : Nat
  result_output : Option JValue
  result_error : Option String
  result_metadata : Option JValue

structure SqliteDb where
  runs : List RunRow
  tasks : List TaskRow

def emptyDb : SqliteDb := { runs := [], tasks := [] }

/-- The task-row insert of `SQLiteStateManager.savePipelineRun`:
`result?.output ? JSON.stringify(...) : null` keeps only truthy outputs,
`result?.error || null` drops empty strings. -/
def taskRowOf (runId : String) (te : TaskExecution) : TaskRow :=
  { run_id := runId, task_id := te.task.id, task_name := te.task.name,
    status := taskStatusToString te.status,
    started_at := te.startedAt, completed_at := te.completedAt,
    attempts := te.attempts,
    result_output :=
      match te.result with
      | some r => (r.output.bind (fun v => if truthy v then some v else none))
      | none => none,
    result_error :=
      match te.result with
      | some r => (r.error.bind (fun e => if e == "" then none else some e))
      | none => none,
    result_metadata :=
      match te.result with
      | some r => (r.metadata.bind (fun v => if truthy v then some v else none))
      | none => none }

/-- `SQLiteStateManager.savePipelineRun` (lines 286-324): INSERT OR
REPLACE of the run row (REPLACE deletes the conflicting primary key and
appends), then a plain insert of one task row per TaskExecution (the
tasks table key is autoincrement, so REPLACE never fires there). -/
def sqliteSavePipelineRun (db : SqliteDb) (run : PipelineRun) : SqliteDb :=
  { runs := db.runs.filter (fun row => row.id != run.id) ++
      [{ id := run.id, pipeline_name := run.pipelineName,
         status := pipelineStatusToString run.status,
         started_at := run.startedAt, completed_at := run.completedAt,
         trigger_type := triggerTypeToString run.trigger.type,
         trigger_config := run.trigger.config,
         error_text := run.error }],
    tasks := db.tasks ++ run.tasks.map (taskRowOf run.id) }

/-- The TaskExecution reconstruction inside
`SQLiteStateManager.getPipelineRun` (lines 354-371): the task snapshot is
rebuilt with `plugin: ''` and `config: {}` only, and a result object is
always synthesized with `success: row.status === 'success'`. -/
def taskExecOfRow (row : TaskRow) : TaskExecution :=
  { task := { id := row.task_id, name := row.task_name, description := none,
              plugin := "", config := .obj [], dependsOn := [], retry := none,
              timeout := none, enabled := none },
    status := taskStatusOfString row.status,
    startedAt := row.started_at, completedAt := row.completed_at,
    attempts := row.attempts,
    result := some { success := row.status == "success",
                     output := row.result_output,
                     error := row.result_error.bind
                       (fun e => if e == "" then none else some e),
                     metadata := row.result_metadata } }

/-- `SQLiteStateManager.getPipelineRun` (lines 326-386). -/
def sqliteGetPipelineRun (db : SqliteDb) (runId : String) : Option PipelineRun :=
  (db.runs.find? (fun row => row.id == runId)).map (fun row =>
    let taskRows := db.tasks.filter (fun tr => tr.run_id == runId)
    { id := row.id, pipelineName := row.pipeline_name,
      status := pipelineStatusOfString row.status,
      startedAt := row.started_at, completedAt := row.completed_at,
      tasks := taskRows.map taskExecOfRow,
      trigger := { type := triggerTypeOfString row.trigger_type,
                   config := row.trigger_config },
      error := row.error_text.bind (fun e => if e == "" then none else some e) })

/-! ## Concrete fixtures used by the theorems below -/

/-- A validated task with defaults, as the parser would produce it. -/
def mkTask (id : String) (plugin : String) (deps : List String) : Task :=
  { id := id, name := id, description := none, plugin := plugin,
    config := .obj [], dependsOn := deps, retry := none, timeout := none,
    enabled := some true }

def mkPipeline (name : String) (tasks : List Task) : Pipeline :=
  { name := name, version := "1.0.0", description := none, tasks := tasks,
    triggers := none, concurrency := none, env := none, timeout := none }

/-- The failure-propagation scenario: `a -> b -> c`. -/
def chainPipeline : Pipeline :=
  mkPipeline "chain"
    [mkTask "a" "p" [], mkTask "b" "p" ["a"], mkTask "c" "p" ["b"]]

/-- The linear three-step scenario: `fetch -> transform -> load`. -/
def linearPipeline : Pipeline :=
  mkPipeline "linear"
    [mkTask "fetch" "http_request" [], mkTask "transform" "js_transform" ["fetch"],
     mkTask "load" "bigquery_load" ["transform"]]

/-- An empty pipeline (zero tasks). -/
def emptyPipeline : Pipeline := mkPipeline "empty" []

def okResult : PluginResult :=
  { success := true, output := some (.obj [("ok", .bool true)]), error := none,
    metadata := none }

/-- Every plugin call succeeds. -/
def allOkOracle : Oracle := fun _ _ => .ok okResult

/-- The plugin for `b` returns success false with error "boom"; others
succeed. -/
def boomOracle : Oracle := fun id _ =>
  if id == "b" then .ok { success := false, output := none, error := some "boom",
                          metadata := none }
  else .ok okResult

/-- Every plugin call fails. -/
def alwaysFailOracle : Oracle := fun _ _ =>
  .ok { success := false, output := none, error := some "always", metadata := none }

/-- A task with a retry policy of 3 attempts and 10 ms delay. -/
def retryTask : Task :=
  { mkTask "x" "p" [] with retry := some { attempts := 3, delay := 10 } }

def retryPipeline : Pipeline := mkPipeline "retrying" [retryTask]

/-- The fresh record `executePipeline` would build for `retryTask`. -/
def retryTaskInit : TaskExecution :=
  { task := retryTask, status := .pending, result := none, startedAt := none,
    completedAt := none, attempts := 0 }

/-! ## Invariant lemmas for the executor semantics -/

/-- `executeTask` never returns a record still marked running: every exit
of the source function has assigned a later status. -/
theorem executeTask_notRunning (oracle : Oracle) (opts : ExecutorOptions)
    (pipeline : Pipeline) (executionId : String) (clock : Nat)
    (te : TaskExecution) :
    ((executeTask oracle opts pipeline executionId clock te).te.status != .running) = true := by
  unfold executeTask catchBranch
  repeat' split <;> (first | rfl | simp_all | skip)

/-- `executeTask` marks a task skipped only on the disabled branch. -/
theorem executeTask_skipOnlyDisabled (oracle : Oracle) (opts : ExecutorOptions)
    (pipeline : Pipeline) (executionId : String) (clock : Nat)
    (te : TaskExecution) :
    (!((executeTask oracle opts pipeline executionId clock te).te.status == .skipped)
      || !(enabledTruthy (executeTask oracle opts pipeline executionId clock te).te.task.enabled)) = true := by
  unfold executeTask catchBranch
  repeat' split <;> (first | rfl | simp_all | skip)

/-- The context `executeTask` hands to the plugin always carries an empty
`previousResults` map (`new Map()`). -/
theorem executeTask_ctx_empty (oracle : Oracle) (opts : ExecutorOptions)
    (pipeline : Pipeline) (executionId : String) (clock : Nat)
    (te : TaskExecution) :
    ((executeTask oracle opts pipeline executionId clock te).ctx.all
      (fun c => c.previousResults.isEmpty)) = true := by
  unfold executeTask catchBranch mkContext
  repeat' split <;> (first | rfl | simp_all | skip)

/-- Dispatching a wave preserves any per-record invariant that
`executeTask` guarantees unconditionally: untouched entries keep it,
dispatched entries re-establish it. -/
theorem runWave_tes_all (P : TaskExecution → Bool)
    (oracle : Oracle) (opts : ExecutorOptions) (pipeline : Pipeline)
    (executionId : String)
    (hstep : ∀ clock te, P (executeTask oracle opts pipeline executionId clock te).te = true)
    (snapshot : List TaskExecution) (executed : List String) :
    ∀ (lst : List TaskExecution) (clock : Nat), lst.all P = true →
      ((runWave oracle opts pipeline executionId snapshot executed lst clock).tes.all P) = true := by
  intro lst
  induction lst with
  | nil => intro clock h; simp [runWave]
  | cons te rest ih =>
    intro clock h
    simp only [List.all_cons, Bool.and_eq_true] at h
    simp only [runWave]
    split
    · simp [List.all_cons, hstep, ih _ h.2]
    · simp [List.all_cons, h.1, ih _ h.2]

/-- Every context a wave hands to a plugin has empty `previousResults`. -/
theorem runWave_ctxs_all (oracle : Oracle) (opts : ExecutorOptions)
    (pipeline : Pipeline) (executionId : String)
    (snapshot : List TaskExecution) (executed : List String) :
    ∀ (lst : List TaskExecution) (clock : Nat),
      ((runWave oracle opts pipeline executionId snapshot executed lst clock).ctxs.all
        (fun p => p.2.previousResults.isEmpty)) = true := by
  intro lst
  induction lst with
  | nil => intro clock; simp [runWave]
  | cons te rest ih =>
    intro clock
    simp only [runWave]
    split
    · have hc := executeTask_ctx_empty oracle opts pipeline executionId clock te
      cases h : (executeTask oracle opts pipeline executionId clock te).ctx with
      | none => simpa using ih _
      | some c =>
        rw [h] at hc
        simp only [Option.all_some] at hc
        simp [List.all_cons, hc, ih _]
    · simpa using ih _

/-- The scheduling loop preserves any per-record invariant that
`executeTask` guarantees unconditionally. -/
theorem executeTasksLoop_tes_all (P : TaskExecution → Bool)
    (oracle : Oracle) (opts : ExecutorOptions) (pipeline : Pipeline)
    (executionId : String)
    (hstep : ∀ clock te, P (executeTask oracle opts pipeline executionId clock te).te = true) :
    ∀ (fuel : Nat) (lst : List TaskExecution) (executed : List String) (clock : Nat),
      lst.all P = true →
      ((executeTasksLoop oracle opts pipeline executionId fuel lst executed clock).tes.all P) = true := by
  intro fuel
  induction fuel with
  | zero => intro lst executed clock h; simpa [executeTasksLoop] using h
  | succ n ih =>
    intro lst executed clock h
    simp only [executeTasksLoop]
    split
    · split
      · simpa using h
      · have hw := runWave_tes_all P oracle opts pipeline executionId hstep lst executed lst clock h
        split
        · simpa using hw
        · simpa using ih _ _ _ hw
    · simpa using h

/-- Every context the scheduling loop hands to a plugin has empty
`previousResults`. -/
theorem executeTasksLoop_ctxs_all (oracle : Oracle) (opts : ExecutorOptions)
    (pipeline : Pipeline) (executionId : String) :
    ∀ (fuel : Nat) (lst : List TaskExecution) (executed : List String) (clock : Nat),
      ((executeTasksLoop oracle opts pipeline executionId fuel lst executed clock).ctxs.all
        (fun p => p.2.previousResults.isEmpty)) = true := by
  intro fuel
  induction fuel with
  | zero => intro lst executed clock; simp [executeTasksLoop]
  | succ n ih =>
    intro lst executed clock
    simp only [executeTasksLoop]
    split
    · split
      · simp
      · split
        · simpa using runWave_ctxs_all oracle opts pipeline executionId lst executed lst clock
        · have h1 := runWave_ctxs_all oracle opts pipeline executionId lst executed lst clock
          simp only [List.all_append, Bool.and_eq_true]
          exact ⟨by simpa using h1, by simpa using ih _ _ _⟩
    · simp

/-! ## Claim theorems -/

/-- C1.  For every pipeline, execution id, plugin behavior and executor
options, `executePipeline` returns a run whose final status is one of the
terminal statuses success, failed or cancelled (task-level failures never
escape), and whenever the scheduling loop raised (run-level failure), the
run is returned with status failed and the error summary recorded on
`run.error` instead of the exception propagating. -/
theorem executePipeline_terminal_status (oracle : Oracle) (opts : ExecutorOptions)
    (pipeline : Pipeline) (executionId : String) :
    ((executePipeline oracle opts pipeline executionId).run.status = .success ∨
     (executePipeline oracle opts pipeline executionId).run.status = .failed ∨
     (executePipeline oracle opts pipeline executionId).run.status = .cancelled) ∧
    (∀ m, (executePipeline oracle opts pipeline executionId).caught = some m →
      (executePipeline oracle opts pipeline executionId).run.status = .failed ∧
      (executePipeline oracle opts pipeline executionId).run.error = some m) := by
  have hall : (initTaskExecutions pipeline).all (fun te => te.status != .running) = true := by
    simp [initTaskExecutions, List.all_map, List.all_eq_true]
  have hloop := executeTasksLoop_tes_all (fun te => te.status != .running)
    oracle opts pipeline executionId
    (fun clock te => executeTask_notRunning oracle opts pipeline executionId clock te)
    (pipeline.tasks.length + 1) (initTaskExecutions pipeline) [] 1 hall
  cases hth : (executeTasksLoop oracle opts pipeline executionId
      (pipeline.tasks.length + 1) (initTaskExecutions pipeline) [] 1).thrown with
  | some m' =>
    constructor
    · right; left; simp [executePipeline, hth]
    · intro m hm
      simp only [executePipeline] at hm ⊢
      rw [hth] at hm ⊢
      cases hm
      exact ⟨by simp, by simp⟩
  | none =>
    have hnr : ((executeTasksLoop oracle opts pipeline executionId
        (pipeline.tasks.length + 1) (initTaskExecutions pipeline) [] 1).tes.any
          (fun t => t.status == .running)) = false := by
      cases hq : ((executeTasksLoop oracle opts pipeline executionId
          (pipeline.tasks.length + 1) (initTaskExecutions pipeline) [] 1).tes.any
            (fun t => t.status == .running)) with
      | false => rfl
      | true =>
        obtain ⟨te, hmem, hte⟩ := List.any_eq_true.mp hq
        have hne := List.all_eq_true.mp hloop te hmem
        simp at hne hte
        exact absurd hte hne
    constructor
    · simp only [executePipeline]
      rw [hth]
      simp only [hnr]
      split
      · next hfalse => exact absurd hfalse (by simp)
      · split
        · right; left; rfl
        · split
          · right; right; rfl
          · left; rfl
    · intro m hm
      simp only [executePipeline] at hm
      rw [hth] at hm
      cases hm

/-- Witness for C1 at a concrete failing run: the chain `a -> b -> c`
where the plugin for `b` reports failure; the loop raised
`Task execution failed: boom` and the run comes back failed with that
error summary. -/
theorem executePipeline_terminal_status_witness :
    (executePipeline boomOracle defaultExecutorOptions chainPipeline "exec-1").run.status = .failed ∧
    (executePipeline boomOracle defaultExecutorOptions chainPipeline "exec-1").run.error =
      some "Task execution failed: boom" :=
  (executePipeline_terminal_status boomOracle defaultExecutorOptions chainPipeline
    "exec-1").2 "Task execution failed: boom" rfl

/-- C2.  Evaluating the executor at the specified failing input
`a -> b -> c` with the plugin for `b` returning success false and no
retry: `a` succeeds, `b` fails, the run is failed with the error summary,
but `c` is left `pending` — the executor never marks descendants of a
failed task as skipped (the second conjunct shows a task can only be
skipped by being disabled, for every pipeline and plugin behavior). -/
theorem chainFailure_descendant_stays_pending :
    ((executePipeline boomOracle defaultExecutorOptions chainPipeline "exec-2").run.tasks.map
      (fun te => (te.task.id, te.status)) =
      [("a", .success), ("b", .failed), ("c", .pending)] ∧
     (executePipeline boomOracle defaultExecutorOptions chainPipeline "exec-2").run.status = .failed ∧
     (executePipeline boomOracle defaultExecutorOptions chainPipeline "exec-2").run.error =
       some "Task execution failed: boom") ∧
    (∀ (oracle : Oracle) (opts : ExecutorOptions) (pipeline : Pipeline) (executionId : String),
      ((executePipeline oracle opts pipeline executionId).run.tasks.all
        (fun te => !(te.status == .skipped) || !(enabledTruthy te.task.enabled))) = true) := by
  refine ⟨⟨rfl, rfl, rfl⟩, ?_⟩
  intro oracle opts pipeline executionId
  have hall : (initTaskExecutions pipeline).all
      (fun te => !(te.status == .skipped) || !(enabledTruthy te.task.enabled)) = true := by
    simp [initTaskExecutions, List.all_map, List.all_eq_true]
  have hloop := executeTasksLoop_tes_all
    (fun te => !(te.status == .skipped) || !(enabledTruthy te.task.enabled))
    oracle opts pipeline executionId
    (fun clock te => executeTask_skipOnlyDisabled oracle opts pipeline executionId clock te)
    (pipeline.tasks.length + 1) (initTaskExecutions pipeline) [] 1 hall
  simpa [executePipeline] using hloop

/-- C3 counterexample.  In the linear pipeline
`fetch -> transform -> load` with every plugin succeeding, the context
handed to the plugin of `load` has an empty `previousResults` map — not
one with keys fetch and transform as the claim states. -/
theorem load_context_previousResults_empty_cex :
    (((executePipeline allOkOracle defaultExecutorOptions linearPipeline "exec-3").ctxs.find?
        (fun p => p.1 == "load")).map
      (fun p => p.2.previousResults.map Prod.fst)) = some [] := rfl

/-- C3 amended.  For every pipeline, plugin behavior and options, every
ExecutionContext the executor hands to a plugin has `previousResults`
equal to the empty map: `executeTask` builds the context with
`previousResults: new Map()` and never populates it. -/
theorem previousResults_always_empty (oracle : Oracle) (opts : ExecutorOptions)
    (pipeline : Pipeline) (executionId : String) :
    ((executePipeline oracle opts pipeline executionId).ctxs.all
      (fun p => p.2.previousResults.isEmpty)) = true := by
  have h := executeTasksLoop_ctxs_all oracle opts pipeline executionId
    (pipeline.tasks.length + 1) (initTaskExecutions pipeline) [] 1
  simpa [executePipeline] using h

/-- C9.  `parseCronToInterval` ignores the cron expression entirely: the
armed timer always fires on a fixed 60000 ms period, so the fire times
are `(k+1) * 60000` whatever the five fields say — a daily expression
such as `0 3 * * *` also yields 60000 ms.  The spec states five-field
cron semantics and itself flags this source behavior as a bug. -/
theorem parseCronToInterval_constant (expression : String) (k : Nat) :
    parseCronToInterval expression = 60000 ∧
    cronFireTime expression k = (k + 1) * 60000 ∧
    parseCronToInterval "0 3 * * *" = 60000 := by
  have h : ∀ e : String, parseCronToInterval e = 60000 := by
    intro e
    simp [parseCronToInterval]
  exact ⟨h expression, by simp [cronFireTime, h], h "0 3 * * *"⟩

/-- C10.  The run record built by `executePipeline` hard-codes
`trigger: { type: 'manual', config: {} }`, and the scheduler's
`executeScheduledPipeline` passes only the pipeline and a fresh execution
id to the executor, so even a cron-fired run records the manual trigger. -/
theorem run_trigger_always_manual (oracle : Oracle) (opts : ExecutorOptions)
    (pipeline : Pipeline) (executionId : String) (trigger : PipelineTrigger) :
    (executePipeline oracle opts pipeline executionId).run.trigger =
      ⟨.manual, .obj []⟩ ∧
    (executeScheduledPipeline oracle opts pipeline trigger executionId).run.trigger =
      ⟨.manual, .obj []⟩ :=
  ⟨rfl, rfl⟩

/-- A configuration whose pipeline has an empty tasks list. -/
def emptyTasksConfig : JValue :=
  .obj [("pipeline", .obj [("name", .str "p"), ("version", .str "1"),
                           ("tasks", .arr [])])]

/-- A readable configuration with a validation error (missing name) and a
warning (no tasks). -/
def cfgNoName : JValue :=
  .obj [("pipeline", .obj [("version", .str "1"), ("tasks", .arr [])])]

/-- C4 counterexample.  Executing a pipeline with an empty tasks list
yields a run with status cancelled, not success: with zero task records
`every(t => t.status === 'skipped')` is vacuously true and the cancelled
branch wins. -/
theorem emptyPipeline_run_cancelled_cex :
    (executePipeline allOkOracle defaultExecutorOptions emptyPipeline "exec-4").run.status =
      .cancelled ∧
    (executePipeline allOkOracle defaultExecutorOptions emptyPipeline "exec-4").run.status ≠
      .success :=
  ⟨rfl, by decide⟩

/-- C4 amended.  For every pipeline whose tasks list is empty, execution
yields a run with status cancelled (the vacuous all-skipped branch) and
zero task records, while validation of such a configuration still
produces the `Pipeline has no tasks` warning. -/
theorem emptyTasks_cancelled_with_warning (oracle : Oracle)
    (opts : ExecutorOptions) (pipeline : Pipeline) (executionId : String)
    (h : pipeline.tasks = []) :
    (executePipeline oracle opts pipeline executionId).run.status = .cancelled ∧
    (executePipeline oracle opts pipeline executionId).run.tasks = [] ∧
    validateTasks [] = .ok ([], [.noTasks], []) ∧
    (parse (some emptyTasksConfig) ⟨true, false⟩).toOption.map (fun r => r.warnings) =
      some [.noTasks] ∧
    renderMsg .noTasks = "Pipeline has no tasks" := by
  refine ⟨?_, ?_, rfl, rfl, rfl⟩
  · simp [executePipeline, executeTasksLoop, initTaskExecutions, h]
  · simp [executePipeline, executeTasksLoop, initTaskExecutions, h]

/-- Witness for C4 amended, at the concrete empty pipeline. -/
theorem emptyTasks_cancelled_with_warning_witness :
    (executePipeline allOkOracle defaultExecutorOptions emptyPipeline "exec-4w").run.status =
      .cancelled ∧
    (executePipeline allOkOracle defaultExecutorOptions emptyPipeline "exec-4w").run.tasks = [] ∧
    validateTasks [] = .ok ([], [.noTasks], []) ∧
    (parse (some emptyTasksConfig) ⟨true, false⟩).toOption.map (fun r => r.warnings) =
      some [.noTasks] ∧
    renderMsg .noTasks = "Pipeline has no tasks" :=
  emptyTasks_cancelled_with_warning allOkOracle defaultExecutorOptions
    emptyPipeline "exec-4w" rfl

/-- The inputs on which `parse` throws regardless of options: undecodable
text, a null document, a missing or falsy `pipeline` root key, or a
`validatePipeline` failure (non-object pipeline, or a TypeError crash in
name normalization). -/
def unreadableConfig (input : Option JValue) : Bool :=
  match input with
  | none => true
  | some .null => true
  | some cfg =>
    match getField cfg "pipeline" with
    | none => true
    | some pv => !truthy pv || (validatePipeline pv matches .error _)

/-- The errors list `validatePipeline` computes on a readable input
(empty on unreadable ones). -/
def computedErrors (input : Option JValue) : List VMsg :=
  match input with
  | none => []
  | some .null => []
  | some cfg =>
    match getField cfg "pipeline" with
    | none => []
    | some pv =>
      if truthy pv then
        match validatePipeline pv with
        | .ok (_, _, e) => e
        | .error _ => []
      else []

/-- C6 counterexample.  A readable configuration (missing only the
pipeline name) parsed with the default options — validate on, strict
OFF — throws `Pipeline validation failed`: the throw is gated on the
`validate` option, not on strict mode as the claim states. -/
theorem parse_throws_with_strict_off_cex :
    parse (some cfgNoName) ⟨true, false⟩ = .error "Pipeline validation failed" :=
  rfl

/-- C6 amended.  `parse` throws exactly when the input is unreadable
(unparseable, null, missing/falsy pipeline root key, or a
`validatePipeline` failure) or when the `validate` option (default on)
is set AND the computed errors list is non-empty; strict mode never
causes a throw — on a returned result it only concatenates the warnings
in front of the errors list. -/
theorem parse_error_characterization (input : Option JValue)
    (opts : ParserOptions) :
    ((parse input opts) matches Except.error _) =
      (unreadableConfig input || (opts.validate && !(computedErrors input).isEmpty)) ∧
    (∀ pl w e, parse input opts = .ok ⟨pl, w, e⟩ →
      e = (if opts.strict then w ++ computedErrors input
           else computedErrors input)) := by
  cases input with
  | none => exact ⟨rfl, by intro pl w e h; cases h⟩
  | some cfg =>
    cases cfg with
    | null => exact ⟨rfl, by intro pl w e h; cases h⟩
    | bool b => exact ⟨rfl, by intro pl w e h; cases h⟩
    | num n => exact ⟨rfl, by intro pl w e h; cases h⟩
    | str s => exact ⟨rfl, by intro pl w e h; cases h⟩
    | arr l => exact ⟨rfl, by intro pl w e h; cases h⟩
    | obj fields =>
      cases hf : getField (.obj fields) "pipeline" with
      | none =>
        constructor
        · simp [parse, unreadableConfig, hf]
        · intro pl w e h
          simp [parse, hf] at h
      | some pv =>
        cases ht : truthy pv with
        | false =>
          constructor
          · simp [parse, unreadableConfig, hf, ht]
          · intro pl w e h
            simp [parse, hf, ht] at h
        | true =>
          cases hv : validatePipeline pv with
          | error pf =>
            cases pf with
            | validationFailed m =>
              constructor
              · simp [parse, unreadableConfig, hf, ht, hv]
              · intro pl w e h
                simp [parse, hf, ht, hv] at h
            | crash m =>
              constructor
              · simp [parse, unreadableConfig, hf, ht, hv]
              · intro pl w e h
                simp [parse, hf, ht, hv] at h
          | ok triple =>
            obtain ⟨pl0, w0, e0⟩ := triple
            constructor
            · simp only [parse, unreadableConfig, computedErrors, hf, ht, hv]
              cases hcond : (opts.validate && !e0.isEmpty) <;> simp [hcond]
            · intro pl w e h
              simp only [parse, hf, ht, hv] at h
              simp only [computedErrors, hf, ht, hv]
              by_cases hcond : (opts.validate && !e0.isEmpty) = true
              · simp [hcond] at h
              · simp [hcond] at h
                obtain ⟨hpl, hw, he⟩ := h
                subst hw
                subst he
                rfl

/-- The pipeline value `parse` computes for `cfgNoName`. -/
def cfgNoNamePipeline : Pipeline :=
  { name := "unnamed-pipeline", version := "1", description := none,
    tasks := [], triggers := none, concurrency := none, env := none,
    timeout := none }

/-- Witness for C6 amended: with validate off and strict on, `cfgNoName`
parses to a result whose errors list is the warnings concatenated in
front of the computed errors. -/
theorem parse_error_characterization_witness :
    [VMsg.noTasks, VMsg.pipelineNameMissing] =
      (if (true : Bool) then [VMsg.noTasks] ++ computedErrors (some cfgNoName)
       else computedErrors (some cfgNoName)) :=
  (parse_error_characterization (some cfgNoName) ⟨false, true⟩).2
    cfgNoNamePipeline [VMsg.noTasks] [VMsg.noTasks, VMsg.pipelineNameMissing] rfl

/-- An attempt fails when the plugin is missing, throws, or returns
`success: false`. -/
def attemptFails : PluginOutcome → Bool
  | .ok r => !r.success
  | _ => true

/-- C5.  When an attempt of a task with a retry policy fails and
`attempts < retry.attempts`, `executeTask` resets the record to pending
with timestamps and result cleared, schedules the re-dispatch after
`retry.delay` ms and does not rethrow; otherwise it finalizes the record
as failed.  A task with `retry.attempts = 3` whose plugin always fails
ends with `attempts = 3` and final status failed. -/
theorem retry_resets_then_finalizes :
    (∀ (oracle : Oracle) (opts : ExecutorOptions) (pipeline : Pipeline)
       (executionId : String) (clock : Nat) (te : TaskExecution) (rp : RetryPolicy),
       enabledTruthy te.task.enabled = true →
       te.task.retry = some rp →
       attemptFails (oracle te.task.id (te.attempts + 1)) = true →
       te.attempts + 1 < rp.attempts →
       ((executeTask oracle opts pipeline executionId clock te).te.status = .pending ∧
        (executeTask oracle opts pipeline executionId clock te).te.startedAt = none ∧
        (executeTask oracle opts pipeline executionId clock te).te.completedAt = none ∧
        (executeTask oracle opts pipeline executionId clock te).te.result = none ∧
        (executeTask oracle opts pipeline executionId clock te).te.attempts = te.attempts + 1 ∧
        (executeTask oracle opts pipeline executionId clock te).retryDelay = some rp.delay ∧
        (executeTask oracle opts pipeline executionId clock te).thrown = none)) ∧
    (∀ (oracle : Oracle) (opts : ExecutorOptions) (pipeline : Pipeline)
       (executionId : String) (clock : Nat) (te : TaskExecution) (rp : RetryPolicy),
       enabledTruthy te.task.enabled = true →
       te.task.retry = some rp →
       attemptFails (oracle te.task.id (te.attempts + 1)) = true →
       ¬ (te.attempts + 1 < rp.attempts) →
       ((executeTask oracle opts pipeline executionId clock te).te.status = .failed ∧
        (executeTask oracle opts pipeline executionId clock te).retryDelay = none ∧
        (executeTask oracle opts pipeline executionId clock te).te.attempts = te.attempts + 1)) ∧
    ((executeTaskRetrying alwaysFailOracle defaultExecutorOptions retryPipeline
        "exec-5" 4 0 retryTaskInit).attempts = 3 ∧
     (executeTaskRetrying alwaysFailOracle defaultExecutorOptions retryPipeline
        "exec-5" 4 0 retryTaskInit).status = .failed) := by
  refine ⟨?_, ?_, rfl, rfl⟩
  · intro oracle opts pipeline executionId clock te rp hen hrt hfail hlt
    cases ho : oracle te.task.id (te.attempts + 1) with
    | missing => simp [executeTask, catchBranch, hen, ho, hrt, hlt]
    | err m => simp [executeTask, catchBranch, hen, ho, hrt, hlt]
    | ok r =>
      rw [ho] at hfail
      simp only [attemptFails, Bool.not_eq_true'] at hfail
      simp [executeTask, catchBranch, hen, ho, hrt, hlt, hfail]
  · intro oracle opts pipeline executionId clock te rp hen hrt hfail hge
    cases ho : oracle te.task.id (te.attempts + 1) with
    | missing => simp [executeTask, catchBranch, hen, ho, hrt, hge]
    | err m => simp [executeTask, catchBranch, hen, ho, hrt, hge]
    | ok r =>
      rw [ho] at hfail
      simp only [attemptFails, Bool.not_eq_true'] at hfail
      simp [executeTask, catchBranch, hen, ho, hrt, hge, hfail]

/-- Witness for C5 at the fresh record of the retry task: the first
attempt of an always-failing plugin under `retry.attempts = 3` resets to
pending with everything cleared and a 10 ms re-dispatch. -/
theorem retry_resets_then_finalizes_witness :
    (executeTask alwaysFailOracle defaultExecutorOptions retryPipeline
      "exec-5w" 0 retryTaskInit).te.status = .pending ∧
    (executeTask alwaysFailOracle defaultExecutorOptions retryPipeline
      "exec-5w" 0 retryTaskInit).te.startedAt = none ∧
    (executeTask alwaysFailOracle defaultExecutorOptions retryPipeline
      "exec-5w" 0 retryTaskInit).te.completedAt = none ∧
    (executeTask alwaysFailOracle defaultExecutorOptions retryPipeline
      "exec-5w" 0 retryTaskInit).te.result = none ∧
    (executeTask alwaysFailOracle defaultExecutorOptions retryPipeline
      "exec-5w" 0 retryTaskInit).te.attempts = retryTaskInit.attempts + 1 ∧
    (executeTask alwaysFailOracle defaultExecutorOptions retryPipeline
      "exec-5w" 0 retryTaskInit).retryDelay =
        some (RetryPolicy.mk 3 10).delay ∧
    (executeTask alwaysFailOracle defaultExecutorOptions retryPipeline
      "exec-5w" 0 retryTaskInit).thrown = none :=
  retry_resets_then_finalizes.1 alwaysFailOracle defaultExecutorOptions
    retryPipeline "exec-5w" 0 retryTaskInit ⟨3, 10⟩ rfl rfl rfl (by decide)

/-- Whether an errors list contains the multiple-root-tasks error. -/
def hasRootError (l : List VMsg) : Bool :=
  l.any (fun e => e matches .multipleRoots _)

/-- The cycle DFS appends only `circularDependency` errors, never the
multiple-roots error. -/
theorem detectCycles_noRootError (tasks : List Task) :
    ∀ (fuel : Nat) (taskId : String) (s : DfsState),
      hasRootError s.errors = false →
      hasRootError (detectCycles tasks fuel taskId s).errors = false := by
  intro fuel
  induction fuel with
  | zero => intro taskId s h; simpa [detectCycles] using h
  | succ n ih =>
    intro taskId s h
    simp only [detectCycles]
    split
    · simpa [hasRootError, List.any_append] using h
    · split
      · exact h
      · have hfold : ∀ (deps : List String) (s' : DfsState),
            hasRootError s'.errors = false →
            hasRootError ((deps.foldl (fun acc d => detectCycles tasks n d acc) s').errors) = false := by
          intro deps
          induction deps with
          | nil => intro s' h'; simpa using h'
          | cons d ds ihd => intro s' h'; exact ihd _ (ih d s' h')
        cases hf : tasks.find? (fun t => t.id == taskId) with
        | none => simpa using h
        | some t => simpa using hfold t.dependsOn _ (by simpa using h)

/-- One step of the DAG validation loop appends only cycle and
missing-dependency errors. -/
theorem dagStep_noRootError (tasks : List Task) (taskIds : List String)
    (s : DfsState) (task : Task) (h : hasRootError s.errors = false) :
    hasRootError (dagStep tasks taskIds s task).errors = false := by
  have happ : ∀ a b : List VMsg,
      hasRootError (a ++ b) = (hasRootError a || hasRootError b) := by
    simp [hasRootError, List.any_append]
  have hdep : ∀ ds : List String,
      hasRootError (ds.map (fun d => VMsg.missingDependency task.id d)) = false := by
    intro ds
    induction ds with
    | nil => rfl
    | cons d t ih => simp [hasRootError, List.any_cons] at ih ⊢
  simp only [dagStep]
  split
  · rw [happ, h, hdep]; rfl
  · have h2 := detectCycles_noRootError tasks (tasks.length + 2) task.id s h
    rw [happ, h2, hdep]; rfl

/-- The whole first phase of `validateDAGStructure` appends no
multiple-roots error. -/
theorem dagFold_noRootError (tasks : List Task) (taskIds : List String) :
    ∀ (l : List Task) (s : DfsState), hasRootError s.errors = false →
      hasRootError ((l.foldl (dagStep tasks taskIds) s).errors) = false := by
  intro l
  induction l with
  | nil => intro s h; simpa using h
  | cons t ts ih => intro s h; exact ih _ (dagStep_noRootError tasks taskIds s t h)

/-- C8.  `validateDAGStructure` appends the multiple-root-tasks error if
and only if more than one task has no dependencies and no dependents; a
pipeline with exactly one root, or none, passes this check without that
error. -/
theorem validateDAGStructure_multipleRoots_iff (p : Pipeline) :
    hasRootError (validateDAGStructure p) = true ↔
      1 < (orphanedTasks p).length := by
  have hfold := dagFold_noRootError p.tasks (p.tasks.map (fun t => t.id))
    p.tasks ⟨[], [], []⟩ (by simp [hasRootError])
  simp only [validateDAGStructure]
  split
  · next hgt => simp [hasRootError, List.any_append, hgt]
  · next hle => simp only [hasRootError] at hfold; simp [hasRootError, hfold, hle]

/-! ## State store round trips (C7) -/

theorem pipelineStatus_roundtrip (s : PipelineStatus) :
    pipelineStatusOfString (pipelineStatusToString s) = s := by
  cases s <;> rfl

theorem taskStatus_roundtrip (s : TaskStatus) :
    taskStatusOfString (taskStatusToString s) = s := by
  cases s <;> rfl

theorem triggerType_roundtrip (t : TriggerType) :
    triggerTypeOfString (triggerTypeToString t) = t := by
  cases t <;> rfl

/-- Replacing the first match (or pushing when there is none) makes the
inserted element the first match of a later `find`. -/
theorem find?_upsertMatch {α : Type} (p : α → Bool) (v : α) (hv : p v = true) :
    ∀ l : List α,
      (match l.findIdx? p with
       | some i => l.set i v
       | none => l ++ [v]).find? p = some v := by
  intro l
  induction l with
  | nil => simp [hv]
  | cons a as ih =>
    cases hpa : p a with
    | true => simp [List.findIdx?_cons, hpa, hv]
    | false =>
      cases hidx : as.findIdx? p with
      | some i =>
        rw [hidx] at ih
        simp [List.findIdx?_cons, hpa, hidx, List.find?_cons_of_neg, ih]
      | none =>
        rw [hidx] at ih
        simp [List.findIdx?_cons, hpa, hidx, List.find?_cons_of_neg, ih]

/-- The run row inserted by INSERT OR REPLACE is found by a later select
on the same id. -/
theorem find?_replaceRunRow (x : String) (row : RunRow) (hrow : row.id = x) :
    ∀ rows : List RunRow,
      ((rows.filter (fun r => r.id != x)) ++ [row]).find? (fun r => r.id == x) =
        some row := by
  intro rows
  induction rows with
  | nil => simp [List.find?_cons_of_pos, hrow]
  | cons a as ih =>
    cases ha : (a.id == x) with
    | true =>
      have hbne : (a.id != x) = false := by simp [bne, ha]
      rw [List.filter_cons, hbne]
      rw [if_neg (by simp)]
      exact ih
    | false =>
      have hbne : (a.id != x) = true := by simp [bne, ha]
      rw [List.filter_cons, hbne]
      rw [if_pos rfl, List.cons_append, List.find?_cons_of_neg _ (by simp [ha])]
      exact ih

/-- A validated execution record for the counterexample and witness. -/
def sampleTask : Task :=
  { id := "t1", name := "T", description := none, plugin := "http_request",
    config := .obj [("url", .str "x")], dependsOn := [], retry := none,
    timeout := none, enabled := some true }

def sampleTE : TaskExecution :=
  { task := sampleTask, status := .success,
    result := some { success := true, output := some (.str "data"),
                     error := none, metadata := none },
    startedAt := some 1, completedAt := some 2, attempts := 1 }

def sampleRun : PipelineRun :=
  { id := "r1", pipelineName := "p", status := .success, startedAt := 0,
    completedAt := some 3, tasks := [sampleTE], trigger := ⟨.manual, .obj []⟩,
    error := none }

/-- C7 counterexample.  Saving `sampleRun` (one task with plugin
`http_request` and a non-empty config) to the SQLite backend and reading
it back yields a task whose `task.plugin` is the empty string and whose
`task.config` is the empty object: the tasks table stores neither field
and `getPipelineRun` rebuilds the snapshot with `plugin: ''`,
`config: {}`. -/
theorem sqlite_roundtrip_loses_plugin_cex :
    ((sqliteGetPipelineRun (sqliteSavePipelineRun emptyDb sampleRun) "r1").map
      (fun run => run.tasks.map (fun te => te.task.plugin))) = some [""] ∧
    sampleRun.tasks.map (fun te => te.task.plugin) = ["http_request"] :=
  ⟨rfl, rfl⟩

/-- The first (in-flight) save of the same run id: status running, the
task still pending.  Used to exhibit duplicated task rows on a repeated
save. -/
def sampleTEPending : TaskExecution :=
  { sampleTE with status := .pending, result := none, startedAt := none,
                  completedAt := none, attempts := 0 }

def sampleRunStart : PipelineRun :=
  { sampleRun with status := .running, completedAt := none,
                   tasks := [sampleTEPending] }

/-- C7 amended.  After `savePipelineRun(r)`, `getPipelineRun(r.id)`
returns: on the File backend, exactly the JSON encoding of `r`
(field-wise equal modulo timestamp string encoding); on the SQLite
backend, a run preserving the run-level fields (an empty-string
`r.error` degrades to absent) whose task list is all task rows
previously stored under `r.id` followed by one fresh row per
TaskExecution of `r` — repeated saves duplicate task rows, because the
tasks table's key is the autoincrement rowid and INSERT OR REPLACE only
inserts there — where each fresh row preserves the task's id, name,
status, timestamps and attempts but resets `task.plugin` to the empty
string and `task.config` to the empty object, with the result
reconstructed from the stored columns and `success` recomputed from the
status.  The final conjunct shows the duplication concretely: saving the
in-flight run and then the completed run under the same id reads back
both the stale pending row and the fresh success row. -/
theorem stateStore_roundtrip (doc : FileDoc) (runs : List JValue)
    (r : PipelineRun) (db : SqliteDb)
    (h1 : coerceRunsArray (fsGet doc "pipeline_runs") = some runs) :
    ((fileSavePipelineRun doc r).bind (fun doc2 => fileGetPipelineRun doc2 r.id)) =
      some (some (runToJson r)) ∧
    sqliteGetPipelineRun (sqliteSavePipelineRun db r) r.id = some
      { id := r.id, pipelineName := r.pipelineName, status := r.status,
        startedAt := r.startedAt, completedAt := r.completedAt,
        tasks := (db.tasks.filter (fun tr => tr.run_id == r.id) ++
                  r.tasks.map (taskRowOf r.id)).map taskExecOfRow,
        trigger := { type := r.trigger.type, config := r.trigger.config },
        error := r.error.bind (fun e => if e == "" then none else some e) } ∧
    ((r.tasks.map (fun te => taskExecOfRow (taskRowOf r.id te))).map
        (fun te => (te.task.id, te.task.name, te.status, te.startedAt,
                    te.completedAt, te.attempts))) =
      r.tasks.map (fun te => (te.task.id, te.task.name, te.status,
                              te.startedAt, te.completedAt, te.attempts)) ∧
    ((r.tasks.map (fun te => taskExecOfRow (taskRowOf r.id te))).map
        (fun te => te.task.plugin)) = r.tasks.map (fun _ => "") ∧
    ((sqliteGetPipelineRun
        (sqliteSavePipelineRun (sqliteSavePipelineRun emptyDb sampleRunStart) sampleRun)
        "r1").map (fun run => run.tasks.map (fun te => te.status))) =
      some [.pending, .success] := by
  refine ⟨?_, ?_, ?_, ?_, rfl⟩
  · -- File backend: save then load finds the JSON encoding of r.
    have hvid : runIdMatches (runToJson r) r.id = true := by
      simp [runIdMatches, runToJson, getField]
    have hset : fsGet (fsSet doc "pipeline_runs"
        (.arr (upsertRun runs (runToJson r) r.id))) "pipeline_runs" =
        some (.arr (upsertRun runs (runToJson r) r.id)) := by
      have := find?_upsertMatch (fun p : String × JValue => p.1 == "pipeline_runs")
        ("pipeline_runs", JValue.arr (upsertRun runs (runToJson r) r.id)) (by simp) doc
      simp only [fsGet, fsSet]
      rw [this]
      rfl
    have hfind : (upsertRun runs (runToJson r) r.id).find?
        (fun v => runIdMatches v r.id) = some (runToJson r) := by
      simpa [upsertRun] using
        find?_upsertMatch (fun v => runIdMatches v r.id) (runToJson r) hvid runs
    have hsave : fileSavePipelineRun doc r =
        some (fsSet doc "pipeline_runs" (.arr (upsertRun runs (runToJson r) r.id))) := by
      rw [fileSavePipelineRun, h1]
      rfl
    rw [hsave]
    show fileGetPipelineRun
      (fsSet doc "pipeline_runs" (.arr (upsertRun runs (runToJson r) r.id))) r.id =
      some (some (runToJson r))
    simp only [fileGetPipelineRun, hset, coerceRunsArray]
    simp [hfind]
  · -- SQLite backend: the run row is found, and the selected task rows
    -- are the stale rows already stored under r.id followed by the
    -- freshly inserted ones.
    have hrow := find?_replaceRunRow r.id
      { id := r.id, pipeline_name := r.pipelineName,
        status := pipelineStatusToString r.status,
        started_at := r.startedAt, completed_at := r.completedAt,
        trigger_type := triggerTypeToString r.trigger.type,
        trigger_config := r.trigger.config, error_text := r.error }
      rfl db.runs
    have hnew : (r.tasks.map (taskRowOf r.id)).filter
        (fun tr => tr.run_id == r.id) = r.tasks.map (taskRowOf r.id) := by
      rw [List.filter_eq_self]
      intro tr htr
      obtain ⟨te, _, hte⟩ := List.mem_map.mp htr
      subst hte
      simp [taskRowOf]
    simp only [sqliteSavePipelineRun, sqliteGetPipelineRun, hrow,
      Option.map_some, List.filter_append, hnew]
    simp [pipelineStatus_roundtrip, triggerType_roundtrip, Function.comp]
  · -- Preserved task fields.
    generalize r.tasks = l
    induction l with
    | nil => rfl
    | cons te ts ih =>
      simp only [List.map_cons, List.cons.injEq]
      exact ⟨by simp [taskExecOfRow, taskRowOf, taskStatus_roundtrip], by simpa using ih⟩
  · -- plugin is reset to the empty string.
    generalize r.tasks = l
    induction l with
    | nil => rfl
    | cons te ts ih =>
      simp only [List.map_cons, List.cons.injEq]
      exact ⟨rfl, by simpa using ih⟩

/-- Witness for C7 amended at the empty document, empty database and
`sampleRun`. -/
theorem stateStore_roundtrip_witness :
    ((fileSavePipelineRun [] sampleRun).bind
        (fun doc2 => fileGetPipelineRun doc2 sampleRun.id)) =
      some (some (runToJson sampleRun)) ∧
    sqliteGetPipelineRun (sqliteSavePipelineRun emptyDb sampleRun) sampleRun.id = some
      { id := sampleRun.id, pipelineName := sampleRun.pipelineName,
        status := sampleRun.status, startedAt := sampleRun.startedAt,
        completedAt := sampleRun.completedAt,
        tasks := (emptyDb.tasks.filter (fun tr => tr.run_id == sampleRun.id) ++
                  sampleRun.tasks.map (taskRowOf sampleRun.id)).map taskExecOfRow,
        trigger := { type := sampleRun.trigger.type, config := sampleRun.trigger.config },
        error := sampleRun.error.bind (fun e => if e == "" then none else some e) } ∧
    ((sampleRun.tasks.map (fun te => taskExecOfRow (taskRowOf sampleRun.id te))).map
        (fun te => (te.task.id, te.task.name, te.status, te.startedAt,
                    te.completedAt, te.attempts))) =
      sampleRun.tasks.map (fun te => (te.task.id, te.task.name, te.status,
                                      te.startedAt, te.completedAt, te.attempts)) ∧
    ((sampleRun.tasks.map (fun te => taskExecOfRow (taskRowOf sampleRun.id te))).map
        (fun te => te.task.plugin)) = sampleRun.tasks.map (fun _ => "") ∧
    ((sqliteGetPipelineRun
        (sqliteSavePipelineRun (sqliteSavePipelineRun emptyDb sampleRunStart) sampleRun)
        "r1").map (fun run => run.tasks.map (fun te => te.status))) =
      some [.pending, .success] :=
  stateStore_roundtrip [] [] sampleRun emptyDb rfl

end PipeJS
